import Mathlib

/-!
Shallow embedding of the UGC ad generator's orchestration core
(retry/backoff executor, rate limiter, job poller, batch scheduler,
cost ledger, pipeline), translated from the TypeScript source.
Time stamps are integers (milliseconds), money is `ℚ`, JS numbers used
as exact integers become `Nat`.  Logging is dropped.  Asynchronous
functions become pure functions that additionally return the sleeps
they perform or take the external world (remote responses, scorer
output, clock) as explicit arguments.
-/

/-! ## utils/retry.ts -/

/-- RetryConfig from types.ts: max attempts, delays (ms), multiplier and
the retryable error identifiers. -/
structure RetryConfig where
  maxRetries : Nat
  initialDelay : Nat
  maxDelay : Nat
  backoffMultiplier : Nat
  retryableErrors : List String
deriving Repr, DecidableEq

/-- defaultRetryConfig from utils/retry.ts. -/
def defaultRetryConfig : RetryConfig :=
  { maxRetries := 3
    initialDelay := 30000
    maxDelay := 300000
    backoffMultiplier := 2
    retryableErrors :=
      ["RateLimitExceeded", "APITimeout", "GenerationFailed", "NetworkError"] }

/-- A thrown JavaScript value: either an Error instance (with `name` and
`message`) or any other value (carrying its `String(...)` rendering). -/
inductive Thrown where
  | error (name message : String)
  | nonError (repr : String)
deriving Repr, DecidableEq

/-- JavaScript `String.prototype.includes`: `sub` occurs contiguously in `s`. -/
def strIncludes (s sub : String) : Bool :=
  let cs := s.toList
  let ss := sub.toList
  (List.range (cs.length + 1)).any (fun i => decide (ss = (cs.drop i).take ss.length))

/-- isRetryableError from utils/retry.ts: an Error is retryable when its
message contains, or its name equals, one of the configured identifiers;
anything that is not an Error instance is never retryable. -/
def isRetryableError (e : Thrown) (retryableErrors : List String) : Bool :=
  match e with
  | Thrown.error name message =>
      retryableErrors.any (fun r => strIncludes message r || name == r)
  | Thrown.nonError _ => false

/-- calculateBackoffDelay from utils/retry.ts:
`min(initialDelay * multiplier ^ attempt, maxDelay)`. -/
def calculateBackoffDelay (attempt : Nat) (config : RetryConfig) : Nat :=
  min (config.initialDelay * config.backoffMultiplier ^ attempt) config.maxDelay

/-- JavaScript `String(x)` for a thrown value, as used in withRetry's final
wrapped error message. -/
def thrownToString : Thrown → String
  | Thrown.error _ message => message
  | Thrown.nonError r => r

/-- The wrapped error withRetry raises after exhausting its retries. -/
def retryExhaustedError (context : String) (config : RetryConfig)
    (lastError : Thrown) : Thrown :=
  Thrown.error "Error"
    (context ++ ": " ++ toString config.maxRetries ++ "回のリトライ後も失敗: "
      ++ thrownToString lastError)

/-- The loop body of withRetry from utils/retry.ts.  `fn attempt` is the
outcome of the attempt-th execution of the wrapped operation (0-based, as
in the source's loop variable).  The source iterates
`attempt = 0 .. maxRetries` and breaks at `attempt === maxRetries`; here
`fuel` counts the remaining iterations, so `attempt + fuel =
config.maxRetries` throughout a run started by `withRetry`, and
`attempt === maxRetries` is reached exactly at `fuel = 0`.  The second
component collects the backoff sleeps performed, in order. -/
def withRetryLoop {T : Type} (fn : Nat → Except Thrown T) (config : RetryConfig)
    (context : String) : Nat → Nat → Except Thrown T × List Nat
  | attempt, fuel =>
    let sleeps : List Nat :=
      if attempt = 0 then [] else [calculateBackoffDelay (attempt - 1) config]
    match fn attempt with
    | Except.ok v => (Except.ok v, sleeps)
    | Except.error e =>
      if isRetryableError e config.retryableErrors = false then
        (Except.error e, sleeps)
      else
        match fuel with
        | 0 => (Except.error (retryExhaustedError context config e), sleeps)
        | fuel' + 1 =>
          let rest := withRetryLoop fn config context (attempt + 1) fuel'
          (rest.1, sleeps ++ rest.2)

/-- withRetry from utils/retry.ts: run `fn`, retrying retryable errors up
to `config.maxRetries` times with exponential backoff.  Returns the final
outcome together with the list of backoff sleeps performed. -/
def withRetry {T : Type} (fn : Nat → Except Thrown T) (config : RetryConfig)
    (context : String) : Except Thrown T × List Nat :=
  withRetryLoop fn config context 0 config.maxRetries

/-- The execution outcome `fn j` is a retryable failure under `config`. -/
def RetryFail (config : RetryConfig) {T : Type} (r : Except Thrown T) : Prop :=
  ∃ e, r = Except.error e ∧ isRetryableError e config.retryableErrors = true

/-- The backoff sleeps performed by `withRetryLoop` over the iterations
`attempt, attempt+1, …, attempt+n` when every one of them runs the
operation: `calculateBackoffDelay (t-1)` for each iteration `t ≥ 1`. -/
def delaysFor (config : RetryConfig) (attempt n : Nat) : List Nat :=
  (if attempt = 0 then List.range' 0 n else List.range' (attempt - 1) (n + 1)).map
    (fun j => calculateBackoffDelay j config)

/-! ## utils/cost-tracker.ts -/

/-- Resolution accepted by the pricing table and the Sora2 request. -/
inductive Resolution where
  | r720
  | r1080
deriving Repr, DecidableEq

/-- SORA2_PRICING.perSecond from utils/cost-tracker.ts (dollars/second). -/
def SORA2_PRICING_perSecond : Resolution → ℚ
  | Resolution.r720 => 1 / 2
  | Resolution.r1080 => 1

/-- SORA2_PRICING.minimumCharge. -/
def SORA2_PRICING_minimumCharge : ℚ := 5

/-- SORA2_PRICING.monthlyBudget. -/
def SORA2_PRICING_monthlyBudget : ℚ := 5000

/-- One entry of the CostTracker's history. -/
structure CostEntry where
  timestamp : Int
  amount : ℚ
  description : String
deriving Repr, DecidableEq

/-- The CostTracker's mutable state from utils/cost-tracker.ts. -/
structure CostTracker where
  totalCost : ℚ
  monthlyBudget : ℚ
  costs : List CostEntry
deriving Repr, DecidableEq

/-- The CostTracker constructor (fresh ledger with the given budget). -/
def CostTracker.new (monthlyBudget : ℚ) : CostTracker :=
  { totalCost := 0, monthlyBudget := monthlyBudget, costs := [] }

/-- CostTracker.calculateVideoCost: per-second price times duration,
floored up to the minimum charge.  The source method reads no instance
state, so it is a plain function here. -/
def calculateVideoCost (duration : ℚ) (resolution : Resolution) : ℚ :=
  max (duration * SORA2_PRICING_perSecond resolution) SORA2_PRICING_minimumCharge

/-- CostTracker.recordCost: add to the running total and append a history
entry.  `timestamp` stands for `new Date()`.  The budget check in the
source only emits a warning log, which is not modelled; the method never
throws. -/
def CostTracker.recordCost (t : CostTracker) (timestamp : Int) (amount : ℚ)
    (description : String) : CostTracker :=
  { t with
    totalCost := t.totalCost + amount
    costs := t.costs ++ [{ timestamp := timestamp, amount := amount,
                           description := description }] }

/-- CostTracker.getTotalCost. -/
def CostTracker.getTotalCost (t : CostTracker) : ℚ := t.totalCost

/-- CostTracker.getRemainingBudget: `max(0, monthlyBudget - totalCost)`. -/
def CostTracker.getRemainingBudget (t : CostTracker) : ℚ :=
  max 0 (t.monthlyBudget - t.totalCost)

/-- CostTracker.reset. -/
def CostTracker.reset (t : CostTracker) : CostTracker :=
  { t with totalCost := 0, costs := [] }

/-- One operation of a CostTracker use sequence (queries are pure and do
not change the state, so only the two mutators appear). -/
inductive CostOp where
  | record (timestamp : Int) (amount : ℚ) (description : String)
  | reset
deriving Repr

/-- Apply one operation to a tracker. -/
def applyCostOp (t : CostTracker) : CostOp → CostTracker
  | CostOp.record ts a d => t.recordCost ts a d
  | CostOp.reset => t.reset

/-- Run a sequence of operations on a tracker. -/
def runCostOps (t : CostTracker) (ops : List CostOp) : CostTracker :=
  ops.foldl applyCostOp t

/-- Number of `recordCost` calls since the last `reset` in a sequence,
starting from a history that already holds `n` entries. -/
def recordsSinceReset (n : Nat) (ops : List CostOp) : Nat :=
  ops.foldl (fun acc op => match op with
    | CostOp.record _ _ _ => acc + 1
    | CostOp.reset => 0) n

/-! ## api/sora2-client.ts -/

/-- RATE_LIMIT.requestsPerMinute. -/
def RATE_LIMIT_requestsPerMinute : Nat := 3

/-- RATE_LIMIT.pollingInterval (ms). -/
def RATE_LIMIT_pollingInterval : Nat := 10000

/-- RATE_LIMIT.generationTimeout (ms). -/
def RATE_LIMIT_generationTimeout : Nat := 300000

/-- Sora2APIClient.waitForRateLimit, as a pure step on the
`requestTimestamps` state.  `now` is `Date.now()` at entry.  The source
filters the window to the entries strictly newer than `now - 60000`,
sleeps `60000 - (now - requestTimestamps[0])` when three or more remain
(only if that is positive), and then appends the pre-wait `now` — it does
not re-read the clock or re-check the window after the sleep.  Returns
the new timestamp list and the sleep performed (0 when none). -/
def waitForRateLimit (requestTimestamps : List Int) (now : Int) :
    List Int × Int :=
  let oneMinuteAgo := now - 60000
  let filtered := requestTimestamps.filter (fun t => decide (oneMinuteAgo < t))
  if RATE_LIMIT_requestsPerMinute ≤ filtered.length then
    let oldestRequest := filtered.headD 0
    let waitTime := 60000 - (now - oldestRequest)
    (filtered ++ [now], if 0 < waitTime then waitTime else 0)
  else
    (filtered ++ [now], 0)

/-- The real time at which a `waitForRateLimit` call entered at `now`
returns: entry time plus the sleep it performs. -/
def rateLimitReturnTime (requestTimestamps : List Int) (now : Int) : Int :=
  now + (waitForRateLimit requestTimestamps now).2

/-- Number of recorded timestamps lying in the trailing 60000 ms window
ending at time `p` (with the source's strict lower bound). -/
def countRecent (ts : List Int) (p : Int) : Nat :=
  (ts.filter (fun t => decide (p - 60000 < t))).length

/-- Modelled from the claim's words, for comparison with the source: a
rate-limiter acquire that, when the window is full, waits and then
RE-EVALUATES the window (re-reading the clock) before appending the
then-current time.  `fuel` bounds the re-evaluation loop.  Returns the
new window and the return time. -/
def acquireReeval : Nat → List Int → Int → List Int × Int
  | 0, ts, now =>
    (ts.filter (fun t => decide (now - 60000 < t)) ++ [now], now)
  | fuel + 1, ts, now =>
    let filtered := ts.filter (fun t => decide (now - 60000 < t))
    if RATE_LIMIT_requestsPerMinute ≤ filtered.length then
      let waitTime := 60000 - (now - filtered.headD 0)
      if 0 < waitTime then acquireReeval fuel ts (now + waitTime)
      else (filtered ++ [now], now)
    else (filtered ++ [now], now)

/-- Job status reported by the remote service. -/
inductive JobStatus where
  | queued
  | processing
  | completed
  | failed
deriving Repr, DecidableEq

/-- Sora2GenerationResponse from types.ts (the fields getJobStatus fills). -/
structure Sora2GenerationResponse where
  jobId : String
  status : JobStatus
  videoUrl : Option String
  thumbnailUrl : Option String
  error : Option String
  progress : Option Nat
deriving Repr, DecidableEq

/-- Outcome of Sora2APIClient.pollJobStatus. -/
inductive PollOutcome where
  | ok (r : Sora2GenerationResponse)
  | genFailed (message : String)
  | timedOut (message : String)
  | fuelOut
deriving Repr, DecidableEq

/-- Elapsed milliseconds at the top of the k-th polling iteration
(0-based): each earlier iteration spent its status query (`queryTime j`)
plus the fixed 10000 ms inter-poll sleep. -/
def pollElapsedAt (queryTime : Nat → Nat) : Nat → Nat
  | 0 => 0
  | k + 1 => pollElapsedAt queryTime k + queryTime k + RATE_LIMIT_pollingInterval

/-- The `while (true)` loop of Sora2APIClient.pollJobStatus.  `respond k`
is the response the k-th `getJobStatus` query would return, `queryTime k`
how long that query takes.  Each iteration first checks
`elapsed > generationTimeout` (raising APITimeout without querying),
then queries, returns on `completed`, throws on `failed`, and otherwise
sleeps 10000 ms and loops.  `fuel` bounds the recursion; `fuelOut` is
never reached from `pollJobStatus` (proved below).  The second component
counts the status queries issued. -/
def pollLoop (respond : Nat → Sora2GenerationResponse) (queryTime : Nat → Nat)
    (jobId : String) : Nat → Nat → PollOutcome × Nat
  | 0, k =>
    if RATE_LIMIT_generationTimeout < pollElapsedAt queryTime k then
      (PollOutcome.timedOut ("APITimeout: ジョブ " ++ jobId ++ " がタイムアウトしました"), 0)
    else
      match (respond k).status with
      | JobStatus.completed => (PollOutcome.ok (respond k), 1)
      | JobStatus.failed =>
        (PollOutcome.genFailed
          ("GenerationFailed: " ++ ((respond k).error.getD "不明なエラー")), 1)
      | _ => (PollOutcome.fuelOut, 1)
  | fuel + 1, k =>
    if RATE_LIMIT_generationTimeout < pollElapsedAt queryTime k then
      (PollOutcome.timedOut ("APITimeout: ジョブ " ++ jobId ++ " がタイムアウトしました"), 0)
    else
      match (respond k).status with
      | JobStatus.completed => (PollOutcome.ok (respond k), 1)
      | JobStatus.failed =>
        (PollOutcome.genFailed
          ("GenerationFailed: " ++ ((respond k).error.getD "不明なエラー")), 1)
      | _ =>
        let rest := pollLoop respond queryTime jobId fuel (k + 1)
        (rest.1, 1 + rest.2)

/-- Sora2APIClient.pollJobStatus.  31 iterations of fuel suffice: by
iteration 31 the elapsed time is at least 310000 ms and the timeout check
fires before any further query. -/
def pollJobStatus (respond : Nat → Sora2GenerationResponse)
    (queryTime : Nat → Nat) (jobId : String) : PollOutcome × Nat :=
  pollLoop respond queryTime jobId 31 0

/-- The remote service's behaviour for one submitted request:
the outcome of generateVideo (a job id, or the error it threw after its
own retries) and the status-query oracle pollJobStatus sees for that
job. -/
structure RemoteEnv where
  submit : Except Thrown String
  respond : Nat → Sora2GenerationResponse
  queryTime : Nat → Nat

/-- Convert a polling outcome into the value/exception the `await` in
Sora2APIClient.generate observes (`failed` and timeout polls throw
`new Error(...)`). -/
def pollResultToExcept : PollOutcome → Except Thrown Sora2GenerationResponse
  | PollOutcome.ok r => Except.ok r
  | PollOutcome.genFailed m => Except.error (Thrown.error "Error" m)
  | PollOutcome.timedOut m => Except.error (Thrown.error "Error" m)
  | PollOutcome.fuelOut => Except.error (Thrown.nonError "fuelOut")

/-- Sora2APIClient.generate: submit, then poll the returned job id to a
terminal state.  Any exception of either stage propagates. -/
def clientGenerate (env : RemoteEnv) : Except Thrown Sora2GenerationResponse :=
  match env.submit with
  | Except.error e => Except.error e
  | Except.ok jobId =>
    pollResultToExcept (pollJobStatus env.respond env.queryTime jobId).1

/-- `Promise.all`: succeeds with all values when every element succeeds,
and otherwise rejects.  (In JavaScript the rejection reason is the first
rejection in time; completion order inside a group is unspecified, so
this model takes the first in index order.) -/
def promiseAll {α : Type} : List (Except Thrown α) → Except Thrown (List α)
  | [] => Except.ok []
  | x :: rest =>
    match x with
    | Except.error e => Except.error e
    | Except.ok v =>
      match promiseAll rest with
      | Except.error e => Except.error e
      | Except.ok vs => Except.ok (v :: vs)

/-- The chunking loop of Sora2APIClient.generateBatch:
`for (i = 0; i < len; i += concurrency) batches.push(slice(i, i+concurrency))`.
(With `concurrency = 0` the source loop would not advance; the model
returns no batches in that degenerate case, which the pipeline never
uses — it always passes 3.) -/
def chunksOfFuel {α : Type} (concurrency : Nat) : Nat → List α → List (List α)
  | _, [] => []
  | 0, _ :: _ => []
  | fuel + 1, a :: t =>
    ((a :: t).take concurrency) :: chunksOfFuel concurrency fuel ((a :: t).drop concurrency)

/-- Splitting into groups: with `concurrency ≥ 1` each step consumes at
least one element, so `l.length` steps suffice (the fuel makes the
recursion structural; with `concurrency = 0` the source loop would not
advance, and the model returns no batches in that degenerate case, which
the pipeline never uses — it always passes 3). -/
def chunksOf {α : Type} (concurrency : Nat) (l : List α) : List (List α) :=
  if concurrency = 0 then [] else chunksOfFuel concurrency l.length l

/-- Sora2APIClient.generateBatch: split the requests into groups of
`concurrency`, run each group with `Promise.all` (so a single rejection
rejects the group), and await the groups strictly in order; a rejected
group rejects the whole batch call. -/
def generateBatch (envs : List RemoteEnv) (concurrency : Nat) :
    Except Thrown (List Sora2GenerationResponse) :=
  go (chunksOf concurrency envs) []
where
  go : List (List RemoteEnv) → List Sora2GenerationResponse →
      Except Thrown (List Sora2GenerationResponse)
    | [], acc => Except.ok acc
    | batch :: rest, acc =>
      match promiseAll (batch.map clientGenerate) with
      | Except.error e => Except.error e
      | Except.ok rs => go rest (acc ++ rs)

/-! ## prompts/ugc-templates.ts -/

/-- UGCStyle from types.ts. -/
inductive UGCStyle where
  | casual
  | testimonial
  | tutorial
  | unboxing
  | lifestyle
  | comparison
deriving Repr, DecidableEq

/-- AspectRatio from types.ts. -/
inductive AspectRatio where
  | r16x9
  | r9x16
  | r1x1
  | r4x5
deriving Repr, DecidableEq

/-- ugcPromptTemplates from prompts/ugc-templates.ts. -/
def ugcPromptTemplates : UGCStyle → String
  | UGCStyle.casual =>
    "A casual smartphone video showing {product} in everyday use, " ++
    "natural lighting, slight camera shake, authentic user perspective, " ++
    "relaxed atmosphere, genuine moments"
  | UGCStyle.testimonial =>
    "A genuine user testimonial video featuring {product}, " ++
    "speaking directly to camera, home environment, honest reaction, " ++
    "personal story, authentic emotion, trustworthy delivery"
  | UGCStyle.tutorial =>
    "A step-by-step tutorial video demonstrating {product}, " ++
    "clear close-ups, user's hands visible, helpful annotations, " ++
    "easy to follow, instructional tone, practical tips"
  | UGCStyle.unboxing =>
    "An unboxing video of {product}, " ++
    "excited user reaction, natural lighting, first impressions, " ++
    "product packaging, anticipation, discovery moment"
  | UGCStyle.lifestyle =>
    "A lifestyle video featuring {product} in daily routine, " ++
    "aesthetic but authentic, natural movements, relatable scenarios, " ++
    "seamless integration, aspirational yet achievable"
  | UGCStyle.comparison =>
    "A before-and-after comparison video showcasing {product} impact, " ++
    "side-by-side views, clear results, user satisfaction, " ++
    "measurable difference, transformation story"

/-- buildPrompt from prompts/ugc-templates.ts.  (JavaScript `replace`
substitutes the first occurrence; each template holds `\x7bproduct\x7d`
exactly once, so replacing all occurrences coincides.) -/
def buildPrompt (style : UGCStyle) (productDescription : String)
    (additionalPrompts : Option (List String)) : String :=
  let template := ugcPromptTemplates style
  let prompt := template.replace "{product}" productDescription
  match additionalPrompts with
  | some l => if 0 < l.length then prompt ++ ". " ++ String.intercalate ". " l else prompt
  | none => prompt

/-- Keys of toneVariations used by the plan builder. -/
inductive Tone where
  | energetic
  | calm
  | friendly
  | professional
deriving Repr, DecidableEq

/-- toneVariations from prompts/ugc-templates.ts. -/
def toneVariations : Tone → String
  | Tone.energetic => "energetic and enthusiastic tone"
  | Tone.calm => "calm and relaxed atmosphere"
  | Tone.friendly => "warm and friendly delivery"
  | Tone.professional => "polished yet approachable style"

/-- framingAdjustments from prompts/ugc-templates.ts (keyed by aspect ratio). -/
def framingAdjustments : AspectRatio → String
  | AspectRatio.r16x9 => "wide landscape framing, cinematic composition"
  | AspectRatio.r9x16 => "vertical portrait framing, mobile-first composition"
  | AspectRatio.r1x1 => "square framing, balanced composition"
  | AspectRatio.r4x5 => "vertical framing, Instagram-optimized composition"

/-- Keys of pacingAdjustments. -/
inductive Pacing where
  | short
  | medium
  | long
deriving Repr, DecidableEq

/-- pacingAdjustments from prompts/ugc-templates.ts. -/
def pacingAdjustments : Pacing → String
  | Pacing.short => "quick cuts, fast-paced, attention-grabbing"
  | Pacing.medium => "moderate pacing, well-balanced rhythm"
  | Pacing.long => "slower pacing, detailed exploration, thorough demonstration"

/-- The options object buildVariedPrompt takes. -/
structure VariedPromptOptions where
  tone : Option Tone
  framing : Option AspectRatio
  pacing : Option Pacing
  additionalPrompts : Option (List String)
deriving Repr

/-- buildVariedPrompt from prompts/ugc-templates.ts: the base prompt plus
the tone, framing and pacing adjustments that were supplied.  Unlike
buildRandomVariedPrompt it draws no randomness. -/
def buildVariedPrompt (style : UGCStyle) (productDescription : String)
    (options : VariedPromptOptions) : String :=
  let p0 := buildPrompt style productDescription options.additionalPrompts
  let p1 := match options.tone with
    | some t => p0 ++ ". " ++ toneVariations t
    | none => p0
  let p2 := match options.framing with
    | some f => p1 ++ ". " ++ framingAdjustments f
    | none => p1
  match options.pacing with
  | some pc => p2 ++ ". " ++ pacingAdjustments pc
  | none => p2

/-! ## core/UGCAdGenerator.ts -/

/-- UGCAdGenerationRequest from types.ts. -/
structure UGCAdGenerationRequest where
  sourceVideo : String
  numberOfAds : Nat
  targetAspectRatio : List AspectRatio
  ugcStyle : Option (List UGCStyle)
  duration : Option ℚ
  additionalPrompts : Option (List String)
deriving Repr

/-- The configuration fields of UGCAdGeneratorConfig that the generate
pipeline reads. -/
structure UGCAdGeneratorConfig where
  apiKey : String
  defaultResolution : Option Resolution
  defaultFps : Option Nat
deriving Repr

/-- The default style list of createGenerationPlan (used when the request
carries no `ugcStyle`; `request.ugcStyle || [...]` in JavaScript, where
an empty provided array is still truthy and is used as is). -/
def allStylesDefault : List UGCStyle :=
  [UGCStyle.casual, UGCStyle.testimonial, UGCStyle.tutorial,
   UGCStyle.unboxing, UGCStyle.lifestyle, UGCStyle.comparison]

/-- One element of the generation plan. -/
structure PlanItem where
  ugcStyle : UGCStyle
  aspectRatio : AspectRatio
  prompt : String
deriving Repr, DecidableEq

/-- UGCAdGenerator.createGenerationPlan: for each ordinal `i` pick the
style and aspect ratio round-robin, tone by parity, pacing by whether
`i < numberOfAds / 2` (exact halves, hence the `ℚ` comparison, matching
the source's floating-point one on these integer ranges). -/
def createGenerationPlan (request : UGCAdGenerationRequest) : List PlanItem :=
  (List.range request.numberOfAds).map (fun i =>
    let allStyles := request.ugcStyle.getD allStylesDefault
    let aspectRatios := request.targetAspectRatio
    let style := allStyles.getD (i % allStyles.length) UGCStyle.casual
    let aspectRatio := aspectRatios.getD (i % aspectRatios.length) AspectRatio.r16x9
    let prompt := buildVariedPrompt style "product"
      { tone := some (if i % 2 = 0 then Tone.energetic else Tone.friendly)
        framing := some aspectRatio
        pacing := some (if (i : ℚ) < (request.numberOfAds : ℚ) / 2
                        then Pacing.medium else Pacing.short)
        additionalPrompts := request.additionalPrompts }
    { ugcStyle := style, aspectRatio := aspectRatio, prompt := prompt })

/-- QualityScore from types.ts (deduction details dropped). -/
structure QualityScore where
  overall : ℚ
  videoQuality : ℚ
  ugcAuthenticity : ℚ
  adEffectiveness : ℚ
deriving Repr, DecidableEq

/-- GeneratedAd (the mocked metadata constants of the source are not
modelled; the per-item cost is kept). -/
structure GeneratedAd where
  id : String
  videoUrl : String
  thumbnailUrl : String
  duration : ℚ
  aspectRatio : AspectRatio
  ugcStyle : UGCStyle
  prompt : String
  qualityScore : ℚ
  cost : ℚ
deriving Repr, DecidableEq

/-- FailedAd from types.ts (`errorCode` is a string literal union in the
source). -/
structure FailedAd where
  id : String
  error : String
  errorCode : String
  prompt : String
deriving Repr, DecidableEq

/-- UGCAdGenerationResult from types.ts. -/
structure UGCAdGenerationResult where
  generatedAds : List GeneratedAd
  failedAds : List FailedAd
  totalDuration : ℚ
  totalCost : ℚ
deriving Repr, DecidableEq

/-- `String(n).padStart(3, '0')` for the ad ids. -/
def padStart3 (s : String) : String :=
  if s.length < 3 then String.mk (List.replicate (3 - s.length) '0') ++ s else s

/-- The id `ad-XXX` given to the item at `index` (0-based). -/
def adId (index : Nat) : String :=
  "ad-" ++ padStart3 (toString (index + 1))

/-- The body of the quality-scoring loop of UGCAdGenerator.generate for
the item at `index`: a response without a media result is recorded as a
GenerationFailed item; otherwise the external scorer's verdict `q` gates
at 70 (QualityTooLow below), and a passing item records exactly one cost
entry and becomes a GeneratedAd. -/
def processItem (duration : ℚ) (resolution : Resolution) (index : Nat)
    (response : Sora2GenerationResponse) (plan : PlanItem) (q : QualityScore)
    (tracker : CostTracker) :
    Option GeneratedAd × Option FailedAd × CostTracker :=
  if response.status = JobStatus.failed ∨ response.videoUrl = none then
    (none,
     some { id := adId index
            error := response.error.getD "生成失敗"
            errorCode := "GenerationFailed"
            prompt := plan.prompt },
     tracker)
  else if q.overall < 70 then
    (none,
     some { id := adId index
            error := "品質スコア不足: " ++ toString q.overall ++ "点 (最低70点必要)"
            errorCode := "QualityTooLow"
            prompt := plan.prompt },
     tracker)
  else
    let cost := calculateVideoCost duration resolution
    let tracker' := tracker.recordCost 0 cost ("Ad " ++ toString (index + 1) ++ " generated")
    (some { id := adId index
            videoUrl := response.videoUrl.getD ""
            thumbnailUrl := response.thumbnailUrl.getD ""
            duration := duration
            aspectRatio := plan.aspectRatio
            ugcStyle := plan.ugcStyle
            prompt := plan.prompt
            qualityScore := q.overall
            cost := cost },
     none, tracker')

/-- The quality-scoring loop (step 5 of UGCAdGenerator.generate) over the
zipped responses and plans, starting at item `index`.  `score i` is the
external QualityScorer's verdict for the i-th item (the source scorer
draws random deductions; it is an oracle here). -/
def qualityGateLoop (duration : ℚ) (resolution : Resolution)
    (score : Nat → QualityScore) :
    Nat → List (Sora2GenerationResponse × PlanItem) → CostTracker →
    List GeneratedAd × List FailedAd × CostTracker
  | _, [], tracker => ([], [], tracker)
  | index, (response, plan) :: rest, tracker =>
    let step := processItem duration resolution index response plan (score index) tracker
    let next := qualityGateLoop duration resolution score (index + 1) rest step.2.2
    (step.1.toList ++ next.1, step.2.1.toList ++ next.2.1, next.2.2)

/-- ValidationResult fields UGCAdGenerator.generate reads. -/
structure ValidationResult where
  isValid : Bool
  errors : List String
deriving Repr

/-- ContentPolicyCheckResult fields UGCAdGenerator.generate reads. -/
structure ContentPolicyCheckResult where
  isCompliant : Bool
  details : List String
deriving Repr

/-- The external collaborators and clock of one UGCAdGenerator.generate
call: the validator and policy-checker verdicts, the remote service's
behaviour for each submitted item (by position), the quality scorer's
verdicts (by item index), and the measured wall-clock duration. -/
structure UGCEnv where
  validation : ValidationResult
  policy : ContentPolicyCheckResult
  remote : List RemoteEnv
  score : Nat → QualityScore
  wallClock : ℚ

/-- UGCAdGenerator.generate: validation gate, policy gate, plan
construction, one generateBatch run with concurrency 3, the quality
loop, and the final aggregate whose `totalCost` is
`costTracker.getTotalCost()`.  The per-instance tracker state is threaded
explicitly (`tracker` is the instance's tracker before the call; the
updated tracker is returned next to the result). -/
def ugcGenerate (config : UGCAdGeneratorConfig) (tracker : CostTracker)
    (request : UGCAdGenerationRequest) (env : UGCEnv) :
    Except Thrown (UGCAdGenerationResult × CostTracker) :=
  if env.validation.isValid = false then
    Except.error (Thrown.error "Error"
      ("入力検証失敗: " ++ String.intercalate ", " env.validation.errors))
  else if env.policy.isCompliant = false then
    Except.error (Thrown.error "Error"
      ("コンテンツポリシー違反: " ++ String.intercalate ", " env.policy.details))
  else
    let generationPlan := createGenerationPlan request
    match generateBatch env.remote 3 with
    | Except.error e => Except.error e
    | Except.ok responses =>
      let duration := request.duration.getD 10
      let resolution := config.defaultResolution.getD Resolution.r1080
      let out := qualityGateLoop duration resolution env.score 0
        (responses.zip generationPlan) tracker
      Except.ok
        ({ generatedAds := out.1
           failedAds := out.2.1
           totalDuration := env.wallClock
           totalCost := out.2.2.getTotalCost }, out.2.2)

/-! ## Concrete run data used by the concrete theorems below -/

/-- A job currently in flight (queued and processing are treated alike). -/
def inFlight (r : Sora2GenerationResponse) : Prop :=
  r.status = JobStatus.queued ∨ r.status = JobStatus.processing

/-- A remote item that completes successfully on the first poll. -/
def remoteOkEnv (jobId url : String) : RemoteEnv :=
  { submit := Except.ok jobId
    respond := fun _ =>
      { jobId := jobId, status := JobStatus.completed, videoUrl := some url,
        thumbnailUrl := none, error := none, progress := none }
    queryTime := fun _ => 0 }

/-- A remote item whose first poll reports the terminal failure "boom". -/
def remoteFailedEnv (jobId : String) : RemoteEnv :=
  { submit := Except.ok jobId
    respond := fun _ =>
      { jobId := jobId, status := JobStatus.failed, videoUrl := none,
        thumbnailUrl := none, error := some "boom", progress := none }
    queryTime := fun _ => 0 }

/-- A validator verdict that passes. -/
def okValidation : ValidationResult := { isValid := true, errors := [] }

/-- A policy verdict that passes. -/
def okPolicy : ContentPolicyCheckResult := { isCompliant := true, details := [] }

/-- A quality verdict of 85 (passes the gate). -/
def score85 : QualityScore :=
  { overall := 85, videoQuality := 90, ugcAuthenticity := 80, adEffectiveness := 85 }

/-- A quality verdict of 69 (fails the gate). -/
def score69 : QualityScore :=
  { overall := 69, videoQuality := 70, ugcAuthenticity := 70, adEffectiveness := 70 }

/-- A minimal generator configuration (1080p, 30 fps). -/
def demoConfig : UGCAdGeneratorConfig :=
  { apiKey := "k", defaultResolution := some Resolution.r1080, defaultFps := some 30 }

/-- A two-item request. -/
def twoAdRequest : UGCAdGenerationRequest :=
  { sourceVideo := "src.mp4", numberOfAds := 2,
    targetAspectRatio := [AspectRatio.r9x16], ugcStyle := some [UGCStyle.casual],
    duration := some 10, additionalPrompts := none }

/-- Environment for the two-item request: item 1 completes, item 2's poll
reports a terminal failure. -/
def oneFailureEnv : UGCEnv :=
  { validation := okValidation, policy := okPolicy,
    remote := [remoteOkEnv "job-1" "https://v/1.mp4", remoteFailedEnv "job-2"],
    score := fun _ => score85, wallClock := 1 }

/-- A one-item request. -/
def oneAdRequest : UGCAdGenerationRequest :=
  { sourceVideo := "src.mp4", numberOfAds := 1,
    targetAspectRatio := [AspectRatio.r9x16], ugcStyle := some [UGCStyle.casual],
    duration := some 10, additionalPrompts := none }

/-- Environment in which the single item succeeds with score 85. -/
def oneAdOkEnv : UGCEnv :=
  { validation := okValidation, policy := okPolicy,
    remote := [remoteOkEnv "job-1" "u"],
    score := fun _ => score85, wallClock := 1 }

/-- Two sequential generate calls on the same instance (the second call
starts from the tracker the first call left behind); yields the second
call's reported totalCost, the second call's cost delta, and the first
call's reported totalCost. -/
def twoCallOutcome : Option (ℚ × ℚ × ℚ) :=
  match ugcGenerate demoConfig (CostTracker.new 5000) oneAdRequest oneAdOkEnv with
  | Except.ok (res1, tr1) =>
    match ugcGenerate demoConfig tr1 oneAdRequest oneAdOkEnv with
    | Except.ok (res2, tr2) =>
      some (res2.totalCost, tr2.getTotalCost - tr1.getTotalCost, res1.totalCost)
    | Except.error _ => none
  | Except.error _ => none

/-- A completed response carrying a media result (for the quality-gate
witness). -/
def mediaResponse : Sora2GenerationResponse :=
  { jobId := "job-1", status := JobStatus.completed, videoUrl := some "u",
    thumbnailUrl := none, error := none, progress := none }

/-- A concrete plan item with a short prompt (for the quality-gate
witness). -/
def demoPlan : PlanItem :=
  { ugcStyle := UGCStyle.casual, aspectRatio := AspectRatio.r9x16, prompt := "p" }

/-- The five-item request of the spec's plan-construction example:
styles [casual, testimonial, tutorial], aspect ratios [16:9, 9:16]. -/
def fiveAdRequest : UGCAdGenerationRequest :=
  { sourceVideo := "src.mp4", numberOfAds := 5,
    targetAspectRatio := [AspectRatio.r16x9, AspectRatio.r9x16],
    ugcStyle := some [UGCStyle.casual, UGCStyle.testimonial, UGCStyle.tutorial],
    duration := some 10, additionalPrompts := none }

/-! ## Theorems -/

/-- Filtering with a stronger predicate keeps at most as many elements. -/
theorem length_filter_le_of_imp {α : Type} (l : List α) (p q : α → Bool)
    (h : ∀ a, p a = true → q a = true) :
    (l.filter p).length ≤ (l.filter q).length := by
  induction l with
  | nil => simp
  | cons a t ih =>
    cases hp : p a with
    | true =>
      have hq := h a hp
      simp only [List.filter_cons, hp, hq, if_true, List.length_cons]
      omega
    | false =>
      cases hq : q a with
      | true =>
        simp only [List.filter_cons, hp, hq, if_true, if_false, Bool.false_eq_true,
          List.length_cons]
        omega
      | false =>
        simp only [List.filter_cons, hp, hq, if_false, Bool.false_eq_true]
        exact ih

/-- C7: calculateVideoCost(d, r) = max(d · rate(r), 5.0) with rate 0.5 for
720p and 1.0 for 1080p; (3 s, 1080p) and (10 s, 720p) cost 5.0 and
(20 s, 1080p) costs 20.0.  The function is pure — in the model it depends
on its two arguments alone, matching the source method, which reads no
instance state. -/
theorem c7_video_cost :
    (∀ (d : ℚ) (r : Resolution),
      calculateVideoCost d r
        = max (d * SORA2_PRICING_perSecond r) SORA2_PRICING_minimumCharge) ∧
    SORA2_PRICING_perSecond Resolution.r720 = 1 / 2 ∧
    SORA2_PRICING_perSecond Resolution.r1080 = 1 ∧
    calculateVideoCost 3 Resolution.r1080 = 5 ∧
    calculateVideoCost 10 Resolution.r720 = 5 ∧
    calculateVideoCost 20 Resolution.r1080 = 20 :=
  ⟨fun _ _ => rfl, rfl, rfl,
    by norm_num [calculateVideoCost, SORA2_PRICING_perSecond, SORA2_PRICING_minimumCharge],
    by norm_num [calculateVideoCost, SORA2_PRICING_perSecond, SORA2_PRICING_minimumCharge],
    by norm_num [calculateVideoCost, SORA2_PRICING_perSecond, SORA2_PRICING_minimumCharge]⟩

/-- The ledger invariant is preserved by any operation sequence: the
running total is the sum of the history amounts, the history length
advances with the records-since-reset count, and the budget never
changes. -/
theorem runCostOps_invariant (ops : List CostOp) :
    ∀ t : CostTracker,
      t.totalCost = (t.costs.map CostEntry.amount).sum →
      (runCostOps t ops).totalCost
          = ((runCostOps t ops).costs.map CostEntry.amount).sum
        ∧ (runCostOps t ops).costs.length = recordsSinceReset t.costs.length ops := by
  induction ops with
  | nil => intro t ht; exact ⟨ht, rfl⟩
  | cons op rest ih =>
    intro t ht
    have hstep : runCostOps t (op :: rest) = runCostOps (applyCostOp t op) rest := rfl
    cases op with
    | record ts a d =>
      have h' := ih (t.recordCost ts a d) (by
        simp [CostTracker.recordCost, ht, List.map_append, List.sum_append])
      refine ⟨hstep ▸ h'.1, ?_⟩
      rw [hstep]
      have hlen : (t.recordCost ts a d).costs.length = t.costs.length + 1 := by
        simp [CostTracker.recordCost]
      have := h'.2
      rw [hlen] at this
      simpa [recordsSinceReset, applyCostOp] using this
    | reset =>
      have h' := ih t.reset (by simp [CostTracker.reset])
      refine ⟨hstep ▸ h'.1, ?_⟩
      rw [hstep]
      have := h'.2
      simpa [CostTracker.reset, recordsSinceReset, applyCostOp] using this

/-- C10: after any sequence of recordCost/reset/query operations on a
fresh tracker, getTotalCost equals the sum of the history amounts, the
history length equals the number of recordCost calls since the last
reset, and getRemainingBudget equals max(0, budget − total) and is never
negative.  recordCost is modelled by the total function
CostTracker.recordCost, which cannot throw; the query operations are
pure and so do not appear in the operation list. -/
theorem c10_cost_tracker_invariant (budget : ℚ) (ops : List CostOp) :
    (runCostOps (CostTracker.new budget) ops).getTotalCost
        = (((runCostOps (CostTracker.new budget) ops).costs).map CostEntry.amount).sum
    ∧ (runCostOps (CostTracker.new budget) ops).costs.length = recordsSinceReset 0 ops
    ∧ (∀ t : CostTracker,
        t.getRemainingBudget = max 0 (t.monthlyBudget - t.getTotalCost))
    ∧ (∀ t : CostTracker, 0 ≤ t.getRemainingBudget) := by
  have h := runCostOps_invariant ops (CostTracker.new budget) (by simp [CostTracker.new])
  exact ⟨h.1, by simpa [CostTracker.new] using h.2,
    fun t => rfl, fun t => le_max_left 0 _⟩

/-- C3 (amended): when fewer than 3 recorded timestamps lie within the
trailing 60000 ms window, waitForRateLimit appends `now` and returns with
no wait; when 3 or more lie within it, the sleep is
60000 − (now − window[0]).  After the single sleep the source appends the
pre-wait `now` without re-evaluating the window, so the stored list can
hold 4 timestamps within one 60000 ms span (see the counterexample);
what does hold is that at the real time at which each call returns, at
most 3 recorded timestamps lie within the window trailing that return
time, and this is preserved along any sequential use (next call entered
no earlier than the previous return). -/
theorem c3_rate_limiter_amended :
    (∀ (ts : List Int) (now : Int),
      (ts.filter (fun t => decide (now - 60000 < t))).length
          < RATE_LIMIT_requestsPerMinute →
      waitForRateLimit ts now
        = (ts.filter (fun t => decide (now - 60000 < t)) ++ [now], 0))
    ∧ (∀ (ts : List Int) (now : Int),
      RATE_LIMIT_requestsPerMinute
          ≤ (ts.filter (fun t => decide (now - 60000 < t))).length →
      (waitForRateLimit ts now).2
        = 60000 - (now - (ts.filter (fun t => decide (now - 60000 < t))).headD 0)
        ∧ (waitForRateLimit ts now).1
            = ts.filter (fun t => decide (now - 60000 < t)) ++ [now])
    ∧ (∀ (ts : List Int) (r now : Int),
      countRecent ts r ≤ 3 → r ≤ now →
      countRecent (waitForRateLimit ts now).1 (rateLimitReturnTime ts now) ≤ 3) := by
  refine ⟨?_, ?_, ?_⟩
  · intro ts now h
    simp only [waitForRateLimit]
    rw [if_neg (by omega)]
  · intro ts now h
    have hne : ts.filter (fun t => decide (now - 60000 < t)) ≠ [] := by
      intro hnil
      rw [hnil] at h
      simp [RATE_LIMIT_requestsPerMinute] at h
    obtain ⟨o, tail, hcons⟩ : ∃ o tail,
        ts.filter (fun t => decide (now - 60000 < t)) = o :: tail := by
      cases hfe : ts.filter (fun t => decide (now - 60000 < t)) with
      | nil => exact absurd hfe hne
      | cons o tail => exact ⟨o, tail, rfl⟩
    have ho : now - 60000 < o := by
      have hmem : o ∈ ts.filter (fun t => decide (now - 60000 < t)) := by
        rw [hcons]; exact List.mem_cons_self o tail
      simpa using (List.mem_filter.mp hmem).2
    have hpos : (0:Int) < 60000 - (now - o) := by omega
    constructor
    · simp only [waitForRateLimit]
      rw [if_pos h, hcons]
      simp only [List.headD_cons]
      rw [if_pos (by rw [hcons] at *; simpa [List.headD_cons] using hpos)]
    · simp only [waitForRateLimit]
      rw [if_pos h]
  · intro ts r now hinv hr
    have hmono : (ts.filter (fun t => decide (now - 60000 < t))).length
        ≤ countRecent ts r := by
      apply length_filter_le_of_imp
      intro a ha
      simp only [decide_eq_true_eq] at ha ⊢
      omega
    by_cases hc : RATE_LIMIT_requestsPerMinute
        ≤ (ts.filter (fun t => decide (now - 60000 < t))).length
    · have hlen : (ts.filter (fun t => decide (now - 60000 < t))).length = 3 := by
        have h3 : RATE_LIMIT_requestsPerMinute = 3 := rfl
        omega
      obtain ⟨o, tail, hcons⟩ : ∃ o tail,
          ts.filter (fun t => decide (now - 60000 < t)) = o :: tail := by
        cases hfe : ts.filter (fun t => decide (now - 60000 < t)) with
        | nil => rw [hfe] at hlen; simp at hlen
        | cons o tail => exact ⟨o, tail, rfl⟩
      have htail : tail.length = 2 := by
        rw [hcons] at hlen
        simpa using hlen
      have ho : now - 60000 < o := by
        have hmem : o ∈ ts.filter (fun t => decide (now - 60000 < t)) := by
          rw [hcons]; exact List.mem_cons_self o tail
        simpa using (List.mem_filter.mp hmem).2
      have hpos : (0:Int) < 60000 - (now - o) := by omega
      have hw : waitForRateLimit ts now
          = (o :: tail ++ [now], 60000 - (now - o)) := by
        simp only [waitForRateLimit]
        rw [if_pos hc, hcons]
        simp only [List.headD_cons]
        rw [if_pos hpos]
      have hret : rateLimitReturnTime ts now = o + 60000 := by
        simp only [rateLimitReturnTime, hw]
        omega
      rw [hw, hret]
      show countRecent (o :: tail ++ [now]) (o + 60000) ≤ 3
      have hhead : countRecent (o :: tail ++ [now]) (o + 60000)
          = countRecent (tail ++ [now]) (o + 60000) := by
        simp only [countRecent, List.cons_append, List.filter_cons]
        have hoo : decide (o + 60000 - 60000 < o) = false := by simp
        rw [hoo]
        simp
      rw [hhead]
      have hb : countRecent (tail ++ [now]) (o + 60000) ≤ (tail ++ [now]).length :=
        List.length_filter_le _ _
      have hl3 : (tail ++ [now]).length = 3 := by simp [htail]
      omega
    · have hw : waitForRateLimit ts now
          = (ts.filter (fun t => decide (now - 60000 < t)) ++ [now], 0) := by
        simp only [waitForRateLimit]
        rw [if_neg hc]
      have hret : rateLimitReturnTime ts now = now := by
        simp only [rateLimitReturnTime, hw]
        omega
      rw [hw, hret]
      show countRecent (ts.filter (fun t => decide (now - 60000 < t)) ++ [now]) now ≤ 3
      have hb : countRecent (ts.filter (fun t => decide (now - 60000 < t)) ++ [now]) now
          ≤ (ts.filter (fun t => decide (now - 60000 < t)) ++ [now]).length :=
        List.length_filter_le _ _
      have hl : (ts.filter (fun t => decide (now - 60000 < t)) ++ [now]).length
          = (ts.filter (fun t => decide (now - 60000 < t))).length + 1 := by
        simp
      have h3 : RATE_LIMIT_requestsPerMinute = 3 := rfl
      omega

/-- C3 counterexample: after three acquisitions at time 0 the recorded
window is [0,0,0]; a fourth call at time 10 sleeps 59990 ms but then
appends the stale entry 10, leaving four recorded timestamps inside one
trailing 60000 ms window (the one ending at 10) — the claimed bound of
three recorded timestamps in every trailing window fails — and a
re-evaluating acquire (the claim's wording) would instead produce the
window [60000], so the source does not re-evaluate before appending. -/
theorem c3_rate_limiter_counterexample :
    (waitForRateLimit ((waitForRateLimit ((waitForRateLimit [] 0).1) 0).1) 0).1
        = [0, 0, 0]
    ∧ waitForRateLimit [0, 0, 0] 10 = ([0, 0, 0, 10], 59990)
    ∧ countRecent [0, 0, 0, 10] 10 = 4
    ∧ acquireReeval 5 [0, 0, 0] 10 = ([60000], 60000) := by
  refine ⟨by decide, by decide, by decide, by decide⟩

/-- Witness for c3_rate_limiter_amended at the state [0,0,0] (reached by
the three calls above, whose last call returned at time 0) and a fourth
call at time 10. -/
theorem c3_rate_limiter_amended_witness :
    countRecent (waitForRateLimit [0, 0, 0] 10).1
      (rateLimitReturnTime [0, 0, 0] 10) ≤ 3 :=
  c3_rate_limiter_amended.2.2 [0, 0, 0] 0 10 (by decide) (by decide)

/-- One-step unfolding of withRetryLoop. -/
theorem withRetryLoop_eq {T : Type} (fn : Nat → Except Thrown T)
    (config : RetryConfig) (context : String) (attempt fuel : Nat) :
    withRetryLoop fn config context attempt fuel =
      (let sleeps : List Nat :=
        if attempt = 0 then [] else [calculateBackoffDelay (attempt - 1) config]
      match fn attempt with
      | Except.ok v => (Except.ok v, sleeps)
      | Except.error e =>
        if isRetryableError e config.retryableErrors = false then
          (Except.error e, sleeps)
        else
          match fuel with
          | 0 => (Except.error (retryExhaustedError context config e), sleeps)
          | fuel' + 1 =>
            let rest := withRetryLoop fn config context (attempt + 1) fuel'
            (rest.1, sleeps ++ rest.2)) := by
  rw [withRetryLoop]

/-- The sleep of the current iteration followed by the sleeps of the
later iterations forms the sleep schedule from the current iteration. -/
theorem delaysFor_cons (config : RetryConfig) (a n : Nat) :
    (if a = 0 then ([] : List Nat) else [calculateBackoffDelay (a - 1) config])
      ++ delaysFor config (a + 1) n = delaysFor config a (n + 1) := by
  cases a with
  | zero => simp [delaysFor]
  | succ a' =>
    show [calculateBackoffDelay a' config]
        ++ (List.range' (a' + 1) (n + 1)).map (fun j => calculateBackoffDelay j config)
      = (List.range' a' (n + 1 + 1)).map (fun j => calculateBackoffDelay j config)
    rw [List.range'_succ a' (n + 1) 1]
    simp

/-- From iteration 0 the sleep schedule is the backoff delays 0..n-1. -/
theorem delaysFor_zero (config : RetryConfig) (n : Nat) :
    delaysFor config 0 n
      = (List.range n).map (fun j => calculateBackoffDelay j config) := by
  simp [delaysFor, List.range_eq_range']

/-- When every attempt fails with a retryable error, withRetryLoop sleeps
the full backoff schedule of its iteration range. -/
theorem withRetryLoop_all_retryable {T : Type} (fn : Nat → Except Thrown T)
    (config : RetryConfig) (context : String)
    (h : ∀ j, RetryFail config (fn j)) :
    ∀ (fuel attempt : Nat),
      (withRetryLoop fn config context attempt fuel).2
        = delaysFor config attempt fuel := by
  intro fuel
  induction fuel with
  | zero =>
    intro attempt
    obtain ⟨e, he, hr⟩ := h attempt
    rw [withRetryLoop_eq]
    simp only [he, hr, Bool.true_eq_false, if_false]
    cases attempt <;> simp [delaysFor, List.range'_one]
  | succ fuel' ih =>
    intro attempt
    obtain ⟨e, he, hr⟩ := h attempt
    rw [withRetryLoop_eq]
    simp only [he, hr, Bool.true_eq_false, if_false]
    show (if attempt = 0 then ([] : List Nat)
        else [calculateBackoffDelay (attempt - 1) config])
      ++ (withRetryLoop fn config context (attempt + 1) fuel').2
      = delaysFor config attempt (fuel' + 1)
    rw [ih (attempt + 1), delaysFor_cons]

/-- If the first k attempts fail retryably and attempt k throws a
non-retryable error, withRetryLoop propagates that error and performs
only the k backoff sleeps that preceded attempt k. -/
theorem withRetryLoop_nonretryable_stop {T : Type} (fn : Nat → Except Thrown T)
    (config : RetryConfig) (context : String) :
    ∀ (k a fuel : Nat), k ≤ fuel →
      (∀ j, j < k → RetryFail config (fn (a + j))) →
      ∀ e, fn (a + k) = Except.error e →
        isRetryableError e config.retryableErrors = false →
        withRetryLoop fn config context a fuel
          = (Except.error e, delaysFor config a k) := by
  intro k
  induction k with
  | zero =>
    intro a fuel _ _ e he hnr
    rw [Nat.add_zero] at he
    rw [withRetryLoop_eq]
    simp only [he, hnr, if_true]
    cases a <;> simp [delaysFor, List.range'_one]
  | succ k ih =>
    intro a fuel hkf hpre e he hnr
    obtain ⟨fuel', rfl⟩ : ∃ f, fuel = f + 1 := ⟨fuel - 1, by omega⟩
    obtain ⟨e0, he0, hr0⟩ := by
      have := hpre 0 (Nat.succ_pos k)
      rwa [Nat.add_zero] at this
    have hrec := ih (a + 1) fuel' (by omega)
      (fun j hj => by
        have h2 := hpre (j + 1) (by omega)
        have heq : a + (j + 1) = a + 1 + j := by omega
        rwa [heq] at h2)
      e (by
        have heq : a + (k + 1) = a + 1 + k := by omega
        rwa [heq] at he) hnr
    rw [withRetryLoop_eq]
    simp only [he0, hr0, Bool.true_eq_false, if_false, hrec]
    rw [← delaysFor_cons]

/-- C4: the delay withRetry sleeps before re-executing the operation on
retry k (1-indexed) is calculateBackoffDelay (k−1) =
min(initialDelay · multiplier^(k−1), maxDelay); a run whose attempts all
fail retryably sleeps exactly that schedule for retries 1..maxRetries;
with initialDelay 30000, multiplier 2, maxDelay 300000 the delays before
retries 1..6 are 30000, 60000, 120000, 240000, 300000, 300000; and the
first execution happens with no preceding delay. -/
theorem c4_backoff_delays :
    (∀ (attempt : Nat) (config : RetryConfig),
      calculateBackoffDelay attempt config
        = min (config.initialDelay * config.backoffMultiplier ^ attempt)
            config.maxDelay) ∧
    (∀ (T : Type) (fn : Nat → Except Thrown T) (config : RetryConfig)
        (context : String),
      (∀ j, RetryFail config (fn j)) →
      (withRetry fn config context).2
        = (List.range config.maxRetries).map
            (fun k => min (config.initialDelay * config.backoffMultiplier ^ k)
              config.maxDelay)) ∧
    ((@withRetry Unit (fun _ => Except.error (Thrown.error "Error" "APITimeout"))
        { defaultRetryConfig with maxRetries := 6 } "操作").2
      = [30000, 60000, 120000, 240000, 300000, 300000]) ∧
    (∀ (T : Type) (fn : Nat → Except Thrown T) (config : RetryConfig)
        (context : String) (v : T),
      fn 0 = Except.ok v → withRetry fn config context = (Except.ok v, [])) := by
  refine ⟨fun _ _ => rfl, ?_, by decide, ?_⟩
  · intro T fn config context h
    have hall := withRetryLoop_all_retryable fn config context h config.maxRetries 0
    show (withRetryLoop fn config context 0 config.maxRetries).2 = _
    rw [hall, delaysFor_zero]
    simp [calculateBackoffDelay]
  · intro T fn config context v hv
    show withRetryLoop fn config context 0 config.maxRetries = (Except.ok v, [])
    rw [withRetryLoop_eq]
    simp [hv]

/-- Witness for c4_backoff_delays: the default configuration sleeps
30000, 60000, 120000 over a run of three retries that all fail with an
APITimeout error, and an operation that succeeds at once incurs no
delay. -/
theorem c4_backoff_delays_witness :
    (@withRetry Unit (fun _ => Except.error (Thrown.error "Error" "APITimeout"))
        defaultRetryConfig "op").2 = [30000, 60000, 120000]
    ∧ withRetry (fun _ => Except.ok 0) defaultRetryConfig "op"
        = (Except.ok (0 : Nat), []) := by
  constructor
  · have h := c4_backoff_delays.2.1 Unit
      (fun _ => Except.error (Thrown.error "Error" "APITimeout"))
      defaultRetryConfig "op"
      (fun j => ⟨Thrown.error "Error" "APITimeout", rfl, by decide⟩)
    rw [h]; decide
  · exact c4_backoff_delays.2.2.2 Nat (fun _ => Except.ok 0) defaultRetryConfig
      "op" 0 rfl

/-- C9: a thrown value that is not an Error instance is never classified
retryable, whatever the configured list; consequently, whenever attempt
k of a withRetry run throws such a value (after k retryable failures),
withRetry propagates exactly that value, and the only backoff sleeps of
the whole run are the k that preceded attempt k — none follows the
non-Error throw, and for k = 0 there is no sleep and no retry at all. -/
theorem c9_non_error_not_retried :
    (∀ (r : String) (retryableErrors : List String),
      isRetryableError (Thrown.nonError r) retryableErrors = false) ∧
    (∀ (T : Type) (fn : Nat → Except Thrown T) (config : RetryConfig)
        (context : String) (k : Nat) (r : String),
      k ≤ config.maxRetries →
      (∀ j, j < k → RetryFail config (fn j)) →
      fn k = Except.error (Thrown.nonError r) →
      withRetry fn config context
        = (Except.error (Thrown.nonError r),
            (List.range k).map (fun j => calculateBackoffDelay j config))) := by
  constructor
  · intro r retryableErrors; rfl
  · intro T fn config context k r hk hpre hke
    have h := withRetryLoop_nonretryable_stop fn config context k 0
      config.maxRetries hk
      (fun j hj => by simpa using hpre j hj)
      (Thrown.nonError r) (by simpa using hke) rfl
    show withRetryLoop fn config context 0 config.maxRetries = _
    rw [h, delaysFor_zero]

/-- Witness for c9_non_error_not_retried: an operation that throws the
non-Error value "42" on its first execution propagates it with no sleeps
under the default configuration. -/
theorem c9_non_error_not_retried_witness :
    @withRetry Unit (fun _ => Except.error (Thrown.nonError "42")) defaultRetryConfig
        "op" = (Except.error (Thrown.nonError "42"), ([] : List Nat)) := by
  have h := c9_non_error_not_retried.2 Unit
    (fun _ => Except.error (Thrown.nonError "42")) defaultRetryConfig "op" 0 "42"
    (by omega) (fun j hj => absurd hj (by omega)) rfl
  simpa using h

/-- Each polling iteration advances elapsed time by at least the fixed
10000 ms inter-poll sleep. -/
theorem pollElapsedAt_ge (queryTime : Nat → Nat) :
    ∀ k, RATE_LIMIT_pollingInterval * k ≤ pollElapsedAt queryTime k := by
  intro k
  induction k with
  | zero => simp [pollElapsedAt]
  | succ k ih =>
    have hstep : pollElapsedAt queryTime (k + 1)
        = pollElapsedAt queryTime k + queryTime k + RATE_LIMIT_pollingInterval := rfl
    have h10 : RATE_LIMIT_pollingInterval = 10000 := rfl
    rw [hstep]
    rw [h10] at ih ⊢
    omega

/-- With 31 units of fuel and the timeout check, the polling loop never
runs out of fuel: by iteration 31 at the latest, elapsed time exceeds
the 300000 ms ceiling. -/
theorem pollLoop_ne_fuelOut (respond : Nat → Sora2GenerationResponse)
    (queryTime : Nat → Nat) (jobId : String) :
    ∀ (fuel k : Nat), 31 ≤ fuel + k →
      (pollLoop respond queryTime jobId fuel k).1 ≠ PollOutcome.fuelOut := by
  intro fuel
  induction fuel with
  | zero =>
    intro k hk
    have helapsed : RATE_LIMIT_generationTimeout < pollElapsedAt queryTime k := by
      have hge := pollElapsedAt_ge queryTime k
      have h1 : RATE_LIMIT_pollingInterval = 10000 := rfl
      have h2 : RATE_LIMIT_generationTimeout = 300000 := rfl
      rw [h1] at hge
      rw [h2]
      omega
    simp [pollLoop, helapsed]
  | succ fuel ih =>
    intro k hk
    by_cases ht : RATE_LIMIT_generationTimeout < pollElapsedAt queryTime k
    · simp [pollLoop, ht]
    · cases hs : (respond k).status with
      | completed => simp [pollLoop, ht, hs]
      | failed => simp [pollLoop, ht, hs]
      | queued =>
        simp only [pollLoop, ht, if_false, hs]
        exact ih (k + 1) (by omega)
      | processing =>
        simp only [pollLoop, ht, if_false, hs]
        exact ih (k + 1) (by omega)

/-- The polling loop issues at most 31 − k status queries when started at
iteration k with matching fuel. -/
theorem pollLoop_count_le (respond : Nat → Sora2GenerationResponse)
    (queryTime : Nat → Nat) (jobId : String) :
    ∀ (fuel k : Nat), 31 ≤ fuel + k →
      (pollLoop respond queryTime jobId fuel k).2 ≤ 31 - k := by
  intro fuel
  induction fuel with
  | zero =>
    intro k hk
    have helapsed : RATE_LIMIT_generationTimeout < pollElapsedAt queryTime k := by
      have hge := pollElapsedAt_ge queryTime k
      have h1 : RATE_LIMIT_pollingInterval = 10000 := rfl
      have h2 : RATE_LIMIT_generationTimeout = 300000 := rfl
      rw [h1] at hge
      rw [h2]
      omega
    simp [pollLoop, helapsed]
  | succ fuel ih =>
    intro k hk
    by_cases ht : RATE_LIMIT_generationTimeout < pollElapsedAt queryTime k
    · simp [pollLoop, ht]
    · have hk30 : k ≤ 30 := by
        have hge := pollElapsedAt_ge queryTime k
        have h1 : RATE_LIMIT_pollingInterval = 10000 := rfl
        have h2 : RATE_LIMIT_generationTimeout = 300000 := rfl
        rw [h1] at hge
        rw [h2] at ht
        omega
      cases hs : (respond k).status with
      | completed => simp [pollLoop, ht, hs]; omega
      | failed => simp [pollLoop, ht, hs]; omega
      | queued =>
        simp only [pollLoop, ht, if_false, hs]
        have := ih (k + 1) (by omega)
        omega
      | processing =>
        simp only [pollLoop, ht, if_false, hs]
        have := ih (k + 1) (by omega)
        omega

/-- If the first k responses are in flight, the elapsed-time ceiling is
not yet exceeded through iteration k, and response k is `completed`, the
loop returns that response after exactly k+1 status queries. -/
theorem pollLoop_completed (respond : Nat → Sora2GenerationResponse)
    (queryTime : Nat → Nat) (jobId : String) :
    ∀ (k a fuel : Nat), k ≤ fuel →
      (∀ j, j < k → inFlight (respond (a + j))) →
      (∀ j, j ≤ k →
        pollElapsedAt queryTime (a + j) ≤ RATE_LIMIT_generationTimeout) →
      (respond (a + k)).status = JobStatus.completed →
      pollLoop respond queryTime jobId fuel a
        = (PollOutcome.ok (respond (a + k)), k + 1) := by
  intro k
  induction k with
  | zero =>
    intro a fuel _ _ helapsed hstat
    have ht : ¬ RATE_LIMIT_generationTimeout < pollElapsedAt queryTime a := by
      have := helapsed 0 (by omega)
      rw [Nat.add_zero] at this
      omega
    rw [Nat.add_zero] at hstat
    cases fuel <;> simp [pollLoop, ht, hstat]
  | succ k ih =>
    intro a fuel hkf hin helapsed hstat
    obtain ⟨fuel', rfl⟩ : ∃ f, fuel = f + 1 := ⟨fuel - 1, by omega⟩
    have ht : ¬ RATE_LIMIT_generationTimeout < pollElapsedAt queryTime a := by
      have := helapsed 0 (by omega)
      rw [Nat.add_zero] at this
      omega
    have hf : inFlight (respond a) := by
      have := hin 0 (by omega)
      rwa [Nat.add_zero] at this
    have hrec := ih (a + 1) fuel' (by omega)
      (fun j hj => by
        have h2 := hin (j + 1) (by omega)
        rwa [show a + (j + 1) = a + 1 + j by omega] at h2)
      (fun j hj => by
        have h2 := helapsed (j + 1) (by omega)
        rwa [show a + (j + 1) = a + 1 + j by omega] at h2)
      (by rwa [show a + (k + 1) = a + 1 + k by omega] at hstat)
    have harith : 1 + (k + 1) = k + 1 + 1 := by omega
    have hshift : a + 1 + k = a + (k + 1) := by omega
    cases hf with
    | inl hq =>
      simp only [pollLoop, ht, if_false, hq, hrec, harith, hshift]
    | inr hp =>
      simp only [pollLoop, ht, if_false, hp, hrec, harith, hshift]

/-- As pollLoop_completed, but response k is `failed`: the loop raises the
GenerationFailed error after exactly k+1 status queries. -/
theorem pollLoop_failed (respond : Nat → Sora2GenerationResponse)
    (queryTime : Nat → Nat) (jobId : String) :
    ∀ (k a fuel : Nat), k ≤ fuel →
      (∀ j, j < k → inFlight (respond (a + j))) →
      (∀ j, j ≤ k →
        pollElapsedAt queryTime (a + j) ≤ RATE_LIMIT_generationTimeout) →
      (respond (a + k)).status = JobStatus.failed →
      pollLoop respond queryTime jobId fuel a
        = (PollOutcome.genFailed
            ("GenerationFailed: " ++ ((respond (a + k)).error.getD "不明なエラー")),
           k + 1) := by
  intro k
  induction k with
  | zero =>
    intro a fuel _ _ helapsed hstat
    have ht : ¬ RATE_LIMIT_generationTimeout < pollElapsedAt queryTime a := by
      have := helapsed 0 (by omega)
      rw [Nat.add_zero] at this
      omega
    rw [Nat.add_zero] at hstat
    cases fuel <;> simp [pollLoop, ht, hstat]
  | succ k ih =>
    intro a fuel hkf hin helapsed hstat
    obtain ⟨fuel', rfl⟩ : ∃ f, fuel = f + 1 := ⟨fuel - 1, by omega⟩
    have ht : ¬ RATE_LIMIT_generationTimeout < pollElapsedAt queryTime a := by
      have := helapsed 0 (by omega)
      rw [Nat.add_zero] at this
      omega
    have hf : inFlight (respond a) := by
      have := hin 0 (by omega)
      rwa [Nat.add_zero] at this
    have hrec := ih (a + 1) fuel' (by omega)
      (fun j hj => by
        have h2 := hin (j + 1) (by omega)
        rwa [show a + (j + 1) = a + 1 + j by omega] at h2)
      (fun j hj => by
        have h2 := helapsed (j + 1) (by omega)
        rwa [show a + (j + 1) = a + 1 + j by omega] at h2)
      (by rwa [show a + (k + 1) = a + 1 + k by omega] at hstat)
    have harith : 1 + (k + 1) = k + 1 + 1 := by omega
    have hshift : a + (k + 1) = a + 1 + k := by omega
    cases hf with
    | inl hq =>
      simp only [pollLoop, ht, if_false, hq, hrec, harith, hshift]
    | inr hp =>
      simp only [pollLoop, ht, if_false, hp, hrec, harith, hshift]

/-- If the first k responses are in flight within the ceiling and the
elapsed time at iteration k exceeds 300000 ms, the loop raises APITimeout
after exactly k status queries (none at the timed-out iteration). -/
theorem pollLoop_timeout (respond : Nat → Sora2GenerationResponse)
    (queryTime : Nat → Nat) (jobId : String) :
    ∀ (k a fuel : Nat), k ≤ fuel →
      (∀ j, j < k → inFlight (respond (a + j))
        ∧ pollElapsedAt queryTime (a + j) ≤ RATE_LIMIT_generationTimeout) →
      RATE_LIMIT_generationTimeout < pollElapsedAt queryTime (a + k) →
      pollLoop respond queryTime jobId fuel a
        = (PollOutcome.timedOut
            ("APITimeout: ジョブ " ++ jobId ++ " がタイムアウトしました"), k) := by
  intro k
  induction k with
  | zero =>
    intro a fuel _ _ ht
    rw [Nat.add_zero] at ht
    cases fuel <;> simp [pollLoop, ht]
  | succ k ih =>
    intro a fuel hkf hpre ht
    obtain ⟨fuel', rfl⟩ : ∃ f, fuel = f + 1 := ⟨fuel - 1, by omega⟩
    have h0 := hpre 0 (by omega)
    rw [Nat.add_zero] at h0
    have hnt : ¬ RATE_LIMIT_generationTimeout < pollElapsedAt queryTime a := by
      have := h0.2
      omega
    have hrec := ih (a + 1) fuel' (by omega)
      (fun j hj => by
        have h2 := hpre (j + 1) (by omega)
        rwa [show a + (j + 1) = a + 1 + j by omega] at h2)
      (by rwa [show a + (k + 1) = a + 1 + k by omega] at ht)
    have harith : 1 + k = k + 1 := by omega
    cases h0.1 with
    | inl hq =>
      simp only [pollLoop, hnt, if_false, hq, hrec, harith]
    | inr hp =>
      simp only [pollLoop, hnt, if_false, hp, hrec, harith]

/-- C6: pollJobStatus always reaches an outcome within its iteration
bound (it never exhausts its fuel) and issues at most
⌈300000/10000⌉ + 1 = 31 status queries; when the job reports completed
at poll k (within the ceiling, after in-flight polls), the response is
returned after k+1 queries; when it reports failed, the GenerationFailed
error is raised after k+1 queries; and as soon as elapsed time exceeds
300000 ms the APITimeout error is raised with no further query.  The
fixed 10000 ms sleep between consecutive queries is the
RATE_LIMIT_pollingInterval term of pollElapsedAt. -/
theorem c6_poll_terminates :
    (∀ (respond : Nat → Sora2GenerationResponse) (queryTime : Nat → Nat)
        (jobId : String),
      (pollJobStatus respond queryTime jobId).1 ≠ PollOutcome.fuelOut) ∧
    (∀ (respond : Nat → Sora2GenerationResponse) (queryTime : Nat → Nat)
        (jobId : String),
      (pollJobStatus respond queryTime jobId).2 ≤ 31) ∧
    (∀ (respond : Nat → Sora2GenerationResponse) (queryTime : Nat → Nat)
        (jobId : String) (k : Nat),
      (∀ j, j < k → inFlight (respond j)) →
      (∀ j, j ≤ k →
        pollElapsedAt queryTime j ≤ RATE_LIMIT_generationTimeout) →
      (respond k).status = JobStatus.completed →
      pollJobStatus respond queryTime jobId
        = (PollOutcome.ok (respond k), k + 1)) ∧
    (∀ (respond : Nat → Sora2GenerationResponse) (queryTime : Nat → Nat)
        (jobId : String) (k : Nat),
      (∀ j, j < k → inFlight (respond j)) →
      (∀ j, j ≤ k →
        pollElapsedAt queryTime j ≤ RATE_LIMIT_generationTimeout) →
      (respond k).status = JobStatus.failed →
      pollJobStatus respond queryTime jobId
        = (PollOutcome.genFailed
            ("GenerationFailed: " ++ ((respond k).error.getD "不明なエラー")), k + 1)) ∧
    (∀ (respond : Nat → Sora2GenerationResponse) (queryTime : Nat → Nat)
        (jobId : String) (k : Nat),
      (∀ j, j < k → inFlight (respond j)
        ∧ pollElapsedAt queryTime j ≤ RATE_LIMIT_generationTimeout) →
      RATE_LIMIT_generationTimeout < pollElapsedAt queryTime k →
      pollJobStatus respond queryTime jobId
        = (PollOutcome.timedOut
            ("APITimeout: ジョブ " ++ jobId ++ " がタイムアウトしました"), k)) := by
  refine ⟨?_, ?_, ?_, ?_, ?_⟩
  · intro respond queryTime jobId
    exact pollLoop_ne_fuelOut respond queryTime jobId 31 0 (by omega)
  · intro respond queryTime jobId
    have := pollLoop_count_le respond queryTime jobId 31 0 (by omega)
    simpa [pollJobStatus] using this
  · intro respond queryTime jobId k hin helapsed hstat
    have hk30 : k ≤ 30 := by
      have hle := helapsed k (by omega)
      have hge := pollElapsedAt_ge queryTime k
      have h1 : RATE_LIMIT_pollingInterval = 10000 := rfl
      have h2 : RATE_LIMIT_generationTimeout = 300000 := rfl
      rw [h1] at hge
      rw [h2] at hle
      omega
    have h := pollLoop_completed respond queryTime jobId k 0 31 (by omega)
      (fun j hj => by simpa using hin j hj)
      (fun j hj => by simpa using helapsed j hj)
      (by simpa using hstat)
    simpa [pollJobStatus] using h
  · intro respond queryTime jobId k hin helapsed hstat
    have hk30 : k ≤ 30 := by
      have hle := helapsed k (by omega)
      have hge := pollElapsedAt_ge queryTime k
      have h1 : RATE_LIMIT_pollingInterval = 10000 := rfl
      have h2 : RATE_LIMIT_generationTimeout = 300000 := rfl
      rw [h1] at hge
      rw [h2] at hle
      omega
    have h := pollLoop_failed respond queryTime jobId k 0 31 (by omega)
      (fun j hj => by simpa using hin j hj)
      (fun j hj => by simpa using helapsed j hj)
      (by simpa using hstat)
    simpa [pollJobStatus] using h
  · intro respond queryTime jobId k hpre ht
    have hk31 : k ≤ 31 := by
      by_cases hk : k = 0
      · omega
      · have hle := (hpre (k - 1) (by omega)).2
        have hge := pollElapsedAt_ge queryTime (k - 1)
        have h1 : RATE_LIMIT_pollingInterval = 10000 := rfl
        have h2 : RATE_LIMIT_generationTimeout = 300000 := rfl
        rw [h1] at hge
        rw [h2] at hle
        omega
    have h := pollLoop_timeout respond queryTime jobId k 0 31 (by omega)
      (fun j hj => by simpa using hpre j hj)
      (by simpa using ht)
    simpa [pollJobStatus] using h

/-- Witness for c6_poll_terminates: a job that reports completed on its
first poll is returned after exactly one status query. -/
theorem c6_poll_terminates_witness :
    pollJobStatus (fun _ => mediaResponse) (fun _ => 0) "job-1"
      = (PollOutcome.ok mediaResponse, 1) := by
  have h := c6_poll_terminates.2.2.1 (fun _ => mediaResponse) (fun _ => 0)
    "job-1" 0
    (fun j hj => absurd hj (by omega))
    (fun j hj => by
      have hj0 : j = 0 := by omega
      subst hj0
      decide)
    rfl
  simpa using h

/-- C5: createGenerationPlan builds exactly numberOfAds items; item i
(0-based) is assigned style styles[i mod |styles|] and aspect ratio
aspectRatios[i mod |aspectRatios|], tone energetic for even i and
friendly for odd i, and pacing medium exactly when i < numberOfAds/2
(the exact rational comparison, which this theorem shows equivalent to
2·i < numberOfAds — the source's floating-point comparison is exact on
these integer ranges); the model is a pure function of the request (the
plan builder calls buildVariedPrompt, which draws no randomness), and
the spec's 5-item example with styles [A,B,C] and ratios [X,Y] yields
styles [A,B,C,A,B] and ratios [X,Y,X,Y,X]. -/
theorem c5_generation_plan :
    (∀ request : UGCAdGenerationRequest,
      (createGenerationPlan request).length = request.numberOfAds) ∧
    (∀ (request : UGCAdGenerationRequest) (i : Nat), i < request.numberOfAds →
      (createGenerationPlan request).getD i
          { ugcStyle := UGCStyle.casual, aspectRatio := AspectRatio.r16x9,
            prompt := "" }
        = (let allStyles := request.ugcStyle.getD allStylesDefault
           let style := allStyles.getD (i % allStyles.length) UGCStyle.casual
           let aspectRatio := request.targetAspectRatio.getD
             (i % request.targetAspectRatio.length) AspectRatio.r16x9
           { ugcStyle := style
             aspectRatio := aspectRatio
             prompt := buildVariedPrompt style "product"
               { tone := some (if i % 2 = 0 then Tone.energetic
                               else Tone.friendly)
                 framing := some aspectRatio
                 pacing := some (if 2 * i < request.numberOfAds
                                 then Pacing.medium else Pacing.short)
                 additionalPrompts := request.additionalPrompts } })) ∧
    (∀ (i n : Nat), ((i : ℚ) < (n : ℚ) / 2 ↔ 2 * i < n)) ∧
    ((createGenerationPlan fiveAdRequest).map PlanItem.ugcStyle
      = [UGCStyle.casual, UGCStyle.testimonial, UGCStyle.tutorial,
         UGCStyle.casual, UGCStyle.testimonial]) ∧
    ((createGenerationPlan fiveAdRequest).map PlanItem.aspectRatio
      = [AspectRatio.r16x9, AspectRatio.r9x16, AspectRatio.r16x9,
         AspectRatio.r9x16, AspectRatio.r16x9]) := by
  have hiff : ∀ (i n : Nat), ((i : ℚ) < (n : ℚ) / 2 ↔ 2 * i < n) := by
    intro i n
    rw [lt_div_iff₀ (by norm_num : (0:ℚ) < 2)]
    have hcast : ((i : ℚ) * 2) = ((2 * i : Nat) : ℚ) := by push_cast; ring
    rw [hcast, Nat.cast_lt]
  refine ⟨?_, ?_, hiff, ?_, ?_⟩
  · intro request
    simp [createGenerationPlan]
  · intro request i hi
    have hlen : i < (createGenerationPlan request).length := by
      simp [createGenerationPlan]
      exact hi
    rw [List.getD_eq_getElem _ _ hlen]
    simp only [createGenerationPlan, List.getElem_map, List.getElem_range]
    simp only [hiff i request.numberOfAds]
  · rfl
  · rfl

/-- Witness for c5_generation_plan at the five-item example request and
item 0: style casual, aspect 16:9, tone energetic, pacing medium. -/
theorem c5_generation_plan_witness :
    (createGenerationPlan fiveAdRequest).getD 0
        { ugcStyle := UGCStyle.casual, aspectRatio := AspectRatio.r16x9,
          prompt := "" }
      = { ugcStyle := UGCStyle.casual
          aspectRatio := AspectRatio.r16x9
          prompt := buildVariedPrompt UGCStyle.casual "product"
            { tone := some Tone.energetic
              framing := some AspectRatio.r16x9
              pacing := some Pacing.medium
              additionalPrompts := none } } := by
  have h := c5_generation_plan.2.1 fiveAdRequest 0 (by decide)
  simpa [fiveAdRequest] using h

/-- Each item contributes exactly one history entry when it succeeds and
none when it fails. -/
theorem processItem_costs_length (duration : ℚ) (resolution : Resolution)
    (index : Nat) (response : Sora2GenerationResponse) (plan : PlanItem)
    (q : QualityScore) (tracker : CostTracker) :
    (processItem duration resolution index response plan q tracker).2.2.costs.length
      = tracker.costs.length
        + (processItem duration resolution index response plan q tracker).1.toList.length := by
  unfold processItem
  by_cases h1 : response.status = JobStatus.failed ∨ response.videoUrl = none
  · simp [h1]
  · by_cases h2 : q.overall < 70
    · simp [h1, h2]
    · simp [h1, h2, CostTracker.recordCost]

/-- Each succeeding item adds exactly its cost to the running total and
a failing item adds nothing. -/
theorem processItem_totalCost (duration : ℚ) (resolution : Resolution)
    (index : Nat) (response : Sora2GenerationResponse) (plan : PlanItem)
    (q : QualityScore) (tracker : CostTracker) :
    (processItem duration resolution index response plan q tracker).2.2.totalCost
      = tracker.totalCost
        + (((processItem duration resolution index response plan q tracker).1.toList).map
            GeneratedAd.cost).sum := by
  unfold processItem
  by_cases h1 : response.status = JobStatus.failed ∨ response.videoUrl = none
  · simp [h1]
  · by_cases h2 : q.overall < 70
    · simp [h1, h2]
    · simp [h1, h2, CostTracker.recordCost]

/-- Over the whole quality loop the history grows by exactly one entry
per succeeded item. -/
theorem qualityGateLoop_costs_length (duration : ℚ) (resolution : Resolution)
    (score : Nat → QualityScore) :
    ∀ (items : List (Sora2GenerationResponse × PlanItem)) (index : Nat)
      (tracker : CostTracker),
      ((qualityGateLoop duration resolution score index items tracker).2.2).costs.length
        = tracker.costs.length
          + (qualityGateLoop duration resolution score index items tracker).1.length := by
  intro items
  induction items with
  | nil =>
    intro index tracker
    simp [qualityGateLoop]
  | cons it rest ih =>
    intro index tracker
    obtain ⟨response, plan⟩ := it
    have hstep := processItem_costs_length duration resolution index response plan
      (score index) tracker
    have hrest := ih (index + 1)
      (processItem duration resolution index response plan (score index) tracker).2.2
    simp only [qualityGateLoop, List.length_append]
    omega

/-- Over the whole quality loop the running total grows by exactly the
sum of the succeeded items' costs. -/
theorem qualityGateLoop_totalCost (duration : ℚ) (resolution : Resolution)
    (score : Nat → QualityScore) :
    ∀ (items : List (Sora2GenerationResponse × PlanItem)) (index : Nat)
      (tracker : CostTracker),
      ((qualityGateLoop duration resolution score index items tracker).2.2).totalCost
        = tracker.totalCost
          + ((qualityGateLoop duration resolution score index items tracker).1.map
              GeneratedAd.cost).sum := by
  intro items
  induction items with
  | nil =>
    intro index tracker
    simp [qualityGateLoop]
  | cons it rest ih =>
    intro index tracker
    obtain ⟨response, plan⟩ := it
    have hstep := processItem_totalCost duration resolution index response plan
      (score index) tracker
    have hrest := ih (index + 1)
      (processItem duration resolution index response plan (score index) tracker).2.2
    simp only [qualityGateLoop, List.map_append, List.sum_append]
    rw [hrest, hstep]
    ring

/-- The success branch of the per-item step: an item with a media result
and a passing score becomes a GeneratedAd and appends one cost entry. -/
theorem processItem_media_pass (duration : ℚ) (resolution : Resolution)
    (index : Nat) (response : Sora2GenerationResponse) (plan : PlanItem)
    (q : QualityScore) (tracker : CostTracker) (url : String)
    (hstat : response.status ≠ JobStatus.failed)
    (hurl : response.videoUrl = some url) (hq : 70 ≤ q.overall) :
    processItem duration resolution index response plan q tracker
      = (some { id := adId index
                videoUrl := url
                thumbnailUrl := response.thumbnailUrl.getD ""
                duration := duration
                aspectRatio := plan.aspectRatio
                ugcStyle := plan.ugcStyle
                prompt := plan.prompt
                qualityScore := q.overall
                cost := calculateVideoCost duration resolution },
         none,
         tracker.recordCost 0 (calculateVideoCost duration resolution)
           ("Ad " ++ toString (index + 1) ++ " generated")) := by
  have h1 : ¬ (response.status = JobStatus.failed ∨ response.videoUrl = none) := by
    rintro (h | h)
    · exact hstat h
    · rw [hurl] at h
      exact Option.some_ne_none url h
  unfold processItem
  rw [if_neg h1, if_neg (not_lt.mpr hq), hurl]
  simp

/-- C8: an item with a media result whose overall score is strictly
below 70 is recorded as a failed item with code QualityTooLow and leaves
the ledger untouched; with score 70 or above (pass inclusive at 70) it
becomes a generated item, its cost per the pricing table, and exactly
one ledger entry is appended; over a whole run the ledger grows by
exactly one entry per generated item (so no entry belongs to a failed
item). -/
theorem c8_quality_gate :
    (∀ (duration : ℚ) (resolution : Resolution) (index : Nat)
        (response : Sora2GenerationResponse) (plan : PlanItem)
        (q : QualityScore) (tracker : CostTracker) (url : String),
      response.status ≠ JobStatus.failed → response.videoUrl = some url →
      ((q.overall < 70 →
        processItem duration resolution index response plan q tracker
          = (none,
             some { id := adId index
                    error := "品質スコア不足: " ++ toString q.overall
                      ++ "点 (最低70点必要)"
                    errorCode := "QualityTooLow"
                    prompt := plan.prompt },
             tracker))
       ∧ (70 ≤ q.overall →
          processItem duration resolution index response plan q tracker
            = (some { id := adId index
                      videoUrl := url
                      thumbnailUrl := response.thumbnailUrl.getD ""
                      duration := duration
                      aspectRatio := plan.aspectRatio
                      ugcStyle := plan.ugcStyle
                      prompt := plan.prompt
                      qualityScore := q.overall
                      cost := calculateVideoCost duration resolution },
               none,
               tracker.recordCost 0 (calculateVideoCost duration resolution)
                 ("Ad " ++ toString (index + 1) ++ " generated"))
          ∧ (tracker.recordCost 0 (calculateVideoCost duration resolution)
                ("Ad " ++ toString (index + 1) ++ " generated")).costs.length
              = tracker.costs.length + 1))) ∧
    (∀ (duration : ℚ) (resolution : Resolution) (score : Nat → QualityScore)
        (index : Nat) (items : List (Sora2GenerationResponse × PlanItem))
        (tracker : CostTracker),
      ((qualityGateLoop duration resolution score index items tracker).2.2).costs.length
        = tracker.costs.length
          + (qualityGateLoop duration resolution score index items tracker).1.length) := by
  constructor
  · intro duration resolution index response plan q tracker url hstat hurl
    have h1 : ¬ (response.status = JobStatus.failed ∨ response.videoUrl = none) := by
      rintro (h | h)
      · exact hstat h
      · rw [hurl] at h
        exact Option.some_ne_none url h
    constructor
    · intro hq
      unfold processItem
      rw [if_neg h1, if_pos hq]
    · intro hq
      constructor
      · exact processItem_media_pass duration resolution index response plan q
          tracker url hstat hurl hq
      · simp [CostTracker.recordCost]
  · intro duration resolution score index items tracker
    exact qualityGateLoop_costs_length duration resolution score items index tracker

/-- Witness for c8_quality_gate: a completed response with a media URL
scored 69 is recorded as QualityTooLow with the tracker unchanged, and
scored 85 it is recorded as generated with one appended ledger entry. -/
theorem c8_quality_gate_witness :
    (processItem 10 Resolution.r1080 0 mediaResponse demoPlan score69
        (CostTracker.new 5000)
      = (none,
         some { id := adId 0
                error := "品質スコア不足: " ++ toString (score69.overall)
                  ++ "点 (最低70点必要)"
                errorCode := "QualityTooLow"
                prompt := demoPlan.prompt },
         CostTracker.new 5000))
    ∧ (processItem 10 Resolution.r1080 0 mediaResponse demoPlan score85
        (CostTracker.new 5000)
      = (some { id := adId 0
                videoUrl := "u"
                thumbnailUrl := mediaResponse.thumbnailUrl.getD ""
                duration := 10
                aspectRatio := demoPlan.aspectRatio
                ugcStyle := demoPlan.ugcStyle
                prompt := demoPlan.prompt
                qualityScore := score85.overall
                cost := calculateVideoCost 10 Resolution.r1080 },
         none,
         (CostTracker.new 5000).recordCost 0
           (calculateVideoCost 10 Resolution.r1080) "Ad 1 generated")) := by
  constructor
  · exact (c8_quality_gate.1 10 Resolution.r1080 0 mediaResponse demoPlan score69
      (CostTracker.new 5000) "u" (by decide) rfl).1 (by norm_num [score69])
  · exact ((c8_quality_gate.1 10 Resolution.r1080 0 mediaResponse demoPlan score85
      (CostTracker.new 5000) "u" (by decide) rfl).2 (by norm_num [score85])).1

/-- C2 (amended): the totalCost field a generate call returns equals the
instance tracker's lifetime running total at the end of the call, which
is the pre-call total plus the delta incurred during the call (the sum of
the succeeded items' costs); it therefore equals the call's own delta
only when the ledger was empty at call start (as on the instance's first
call). -/
theorem c2_totalCost_amended (config : UGCAdGeneratorConfig)
    (tracker : CostTracker) (request : UGCAdGenerationRequest) (env : UGCEnv) :
    match ugcGenerate config tracker request env with
    | Except.ok (res, tracker') =>
        res.totalCost = tracker'.getTotalCost
        ∧ tracker'.getTotalCost
            = tracker.getTotalCost + (res.generatedAds.map GeneratedAd.cost).sum
    | Except.error _ => True := by
  unfold ugcGenerate
  by_cases hv : env.validation.isValid = false
  · rw [if_pos hv]
    exact trivial
  · rw [if_neg hv]
    by_cases hpo : env.policy.isCompliant = false
    · rw [if_pos hpo]
      exact trivial
    · rw [if_neg hpo]
      cases hb : generateBatch env.remote 3 with
      | error e => exact trivial
      | ok responses =>
        refine ⟨rfl, ?_⟩
        exact qualityGateLoop_totalCost (request.duration.getD 10)
          (config.defaultResolution.getD Resolution.r1080) env.score
          (responses.zip (createGenerationPlan request)) 0 tracker

/-- Full evaluation of one single-item generate call, generic in the
starting tracker: the item completes, passes the gate with score 85, the
tracker is extended by the item's cost, and the reported totalCost is
the tracker's lifetime total (pre-call total plus the item's cost). -/
theorem ugcGenerate_oneAd_run (t : CostTracker) :
    (ugcGenerate demoConfig t oneAdRequest oneAdOkEnv).map
        (fun pr => (pr.1.totalCost, pr.2))
      = Except.ok (t.totalCost + calculateVideoCost 10 Resolution.r1080,
          t.recordCost 0 (calculateVideoCost 10 Resolution.r1080)
            "Ad 1 generated") := by
  obtain ⟨p, hp⟩ : ∃ p, createGenerationPlan oneAdRequest = [p] := by
    have hlen : (createGenerationPlan oneAdRequest).length = 1 := by
      simp [createGenerationPlan, oneAdRequest]
    cases hl : createGenerationPlan oneAdRequest with
    | nil => rw [hl] at hlen; simp at hlen
    | cons a l =>
      have hnil : l = [] := by
        rw [hl] at hlen
        simpa using hlen
      exact ⟨a, by rw [hnil]⟩
  have hproc := processItem_media_pass 10 Resolution.r1080 0 mediaResponse p
    score85 t "u" (by decide) rfl (by norm_num [score85])
  unfold ugcGenerate
  rw [if_neg (by decide), if_neg (by decide)]
  rw [show generateBatch oneAdOkEnv.remote 3 = Except.ok [mediaResponse] from rfl]
  show (Except.ok _).map _ = _
  simp only [Except.map]
  have hzip : ([mediaResponse].zip (createGenerationPlan oneAdRequest))
      = [(mediaResponse, p)] := by
    rw [hp]
    simp
  have hdur : oneAdRequest.duration.getD 10 = 10 := rfl
  have hres : demoConfig.defaultResolution.getD Resolution.r1080
      = Resolution.r1080 := rfl
  rw [hzip, hdur, hres]
  have hloop : qualityGateLoop 10 Resolution.r1080 oneAdOkEnv.score 0
      [(mediaResponse, p)] t
      = ((processItem 10 Resolution.r1080 0 mediaResponse p score85 t).1.toList,
         (processItem 10 Resolution.r1080 0 mediaResponse p score85 t).2.1.toList,
         (processItem 10 Resolution.r1080 0 mediaResponse p score85 t).2.2) := by
    simp [qualityGateLoop, oneAdOkEnv]
  rw [hloop, hproc]
  rfl

/-- C2 counterexample: two sequential one-item generate calls on the same
instance, each succeeding with cost 10; the second call's returned
totalCost is 20 (the ledger's lifetime total) while the cost delta added
to the ledger during that call is only 10, so the claim "totalCost equals
the delta added during the call" fails on the second call. -/
theorem c2_totalCost_counterexample :
    twoCallOutcome = some (20, 10, 10) ∧ (20 : ℚ) ≠ 10 := by
  have hcost : calculateVideoCost 10 Resolution.r1080 = 10 := by
    norm_num [calculateVideoCost, SORA2_PRICING_perSecond,
      SORA2_PRICING_minimumCharge]
  constructor
  · have h1 := ugcGenerate_oneAd_run (CostTracker.new 5000)
    cases hr1 : ugcGenerate demoConfig (CostTracker.new 5000) oneAdRequest
        oneAdOkEnv with
    | error e =>
      rw [hr1] at h1
      simp [Except.map] at h1
    | ok pr1 =>
      obtain ⟨res1, tr1⟩ := pr1
      rw [hr1] at h1
      simp only [Except.map, Except.ok.injEq, Prod.mk.injEq] at h1
      obtain ⟨h1c, h1t⟩ := h1
      have h2 := ugcGenerate_oneAd_run tr1
      cases hr2 : ugcGenerate demoConfig tr1 oneAdRequest oneAdOkEnv with
      | error e =>
        rw [hr2] at h2
        simp [Except.map] at h2
      | ok pr2 =>
        obtain ⟨res2, tr2⟩ := pr2
        rw [hr2] at h2
        simp only [Except.map, Except.ok.injEq, Prod.mk.injEq] at h2
        obtain ⟨h2c, h2t⟩ := h2
        have houtcome : twoCallOutcome
            = some (res2.totalCost, tr2.getTotalCost - tr1.getTotalCost,
                res1.totalCost) := by
          unfold twoCallOutcome
          rw [hr1]
          show (match ugcGenerate demoConfig tr1 oneAdRequest oneAdOkEnv with
                | Except.ok (res2, tr2) =>
                  some (res2.totalCost, tr2.getTotalCost - tr1.getTotalCost,
                    res1.totalCost)
                | Except.error _ => none) = _
          rw [hr2]
        rw [houtcome]
        have htr1 : tr1.totalCost = 10 := by
          rw [h1t]
          simp [CostTracker.recordCost, CostTracker.new, hcost]
        have htr2 : tr2.totalCost = 20 := by
          rw [h2t]
          simp [CostTracker.recordCost, hcost, htr1]
          norm_num
        have hres1 : res1.totalCost = 10 := by
          rw [h1c]
          simp [CostTracker.new, hcost]
        have hres2 : res2.totalCost = 20 := by
          rw [h2c, htr1, hcost]
          norm_num
        simp only [CostTracker.getTotalCost]
        rw [hres1, hres2, htr1, htr2]
        norm_num
  · norm_num

/-- C1 (evaluation of the code at the failing input): in a two-item run
whose first item completes and whose second item's poll reports terminal
failure, pollJobStatus throws the GenerationFailed error, the
Promise.all join inside generateBatch rejects, and the whole generate
call throws that error instead of returning an aggregate — no failed-item
record with code GenerationFailed is produced, and the first (succeeded)
sibling's outcome is discarded, although in isolation that sibling's
submission-and-poll sequence succeeds (second conjunct).  The loop branch
of UGCAdGenerator.generate that would record a response with status
'failed' as a failed item is unreachable for that status, because
pollJobStatus never returns such a response — it throws. -/
theorem c1_generation_failure_aborts_run :
    ugcGenerate demoConfig (CostTracker.new 5000) twoAdRequest oneFailureEnv
      = Except.error (Thrown.error "Error" "GenerationFailed: boom")
    ∧ clientGenerate (remoteOkEnv "job-1" "https://v/1.mp4")
      = Except.ok { jobId := "job-1", status := JobStatus.completed,
                    videoUrl := some "https://v/1.mp4", thumbnailUrl := none,
                    error := none, progress := none } :=
  ⟨rfl, rfl⟩
